import Mathlib

/-!
Shallow embedding of the investment-advisor committee subsystem
(src/committee/: regime_detector.py, turtles.py, seykota.py, catalyst.py,
risk_reward.py, aggregator.py).

Conventions of the embedding:
* Python floats are modelled by the rationals.
* A dictionary field that may be absent is an Option; "d.get(k, v)" is
  "(field).getD v".  A key present with value None is conflated with an
  absent key.
* Python raises ZeroDivisionError on division by zero; the two functions
  whose divisions are not guarded by the source (evaluate_turtles and
  evaluate_opportunity) are therefore Except-valued, with fdiv as the
  checked division.  All other divisions in the source are dominated by a
  positivity test on the divisor, and those functions are total.
* Scores are naturals: the source only ever adds non-negative integer
  literals to score accumulators.  Nat subtraction in
  apply_sector_adjustment models the max(... - 10, 0) of the source.
* Reasoning strings keep the source texts minus the interpolated numbers
  (no claim concerns the interpolated digits); the interpolated divisions
  themselves are kept because they decide whether the source raises.
-/

/-- Python substring test "needle in hay" on strings. -/
def containsSub (needle hay : String) : Bool :=
  hay.toList.tails.any (fun t => needle.toList.isPrefixOf t)

/-- Python str.lower() for the ASCII strings the source compares;
character-by-character so that concrete evaluations reduce. -/
def strLower (s : String) : String := String.mk (s.data.map Char.toLower)

/-- Python round(x, 2).  (The source rounds binary floats with banker's
rounding; no claim depends on the tie behaviour, so round-half-up on the
rationals is used.) -/
def round2 (x : ℚ) : ℚ := (⌊x * 100 + 1 / 2⌋ : ℤ) / 100

/-- Checked division: Python raises ZeroDivisionError on a zero divisor. -/
def fdiv (a b : ℚ) : Except String ℚ :=
  if b = 0 then .error "ZeroDivisionError: float division by zero" else .ok (a / b)

/-- ticker_data dictionary (all fields externally produced, possibly absent). -/
structure TickerData where
  price : Option ℚ := none
  atr_14 : Option ℚ := none
  high_20d : Option ℚ := none
  avg_volume_20d : Option ℚ := none
  volume : Option ℚ := none
  ema_20 : Option ℚ := none
  ema_50 : Option ℚ := none
  ema_200 : Option ℚ := none
  price_10d_ago : Option ℚ := none
  change_pct : Option ℚ := none
  beta : Option ℚ := none
  sector : Option String := none
  historical_earnings_reaction : Option ℚ := none
deriving DecidableEq, Repr

/-- market_data dictionary. -/
structure MarketData where
  vix : Option ℚ := none
  sp500_change : Option ℚ := none
  spy_above_200ema : Option Bool := none
  advance_decline_ratio : Option ℚ := none
deriving DecidableEq, Repr

/-- catalyst_info dictionary. -/
structure CatalystInfo where
  type : Option String := none
  days_ahead : Option ℤ := none
  days_to_event : Option ℤ := none
  consensus_sentiment : Option String := none
deriving DecidableEq, Repr

structure SectorBias where
  boost : List String
  penalize : List String
deriving DecidableEq, Repr

structure RegimeResult where
  regime : String
  score : ℕ
  reasoning : String
  sector_bias : SectorBias
deriving DecidableEq, Repr

/-- regime_detector.detect_regime. -/
def detect_regime (market_data : MarketData) : RegimeResult :=
  let _sp500_change := market_data.sp500_change.getD 0
  let spy_trend := market_data.spy_above_200ema.getD true
  let breadth := (MarketData.advance_decline_ratio market_data).getD 1
  match market_data.vix with
  | none =>
      { regime := "unknown", score := 10,
        reasoning := "Sin datos de VIX - asumiendo condiciones neutras",
        sector_bias := { boost := [], penalize := [] } }
  | some vix =>
      if vix < 18 ∧ spy_trend ∧ 1.2 ≤ breadth then
        { regime := "risk_on", score := 15,
          reasoning := "VIX bajo, SPY sobre 200 EMA, breadth expansiva. Entorno óptimo para breakouts.",
          sector_bias := { boost := ["tech", "consumer_discretionary", "semiconductors"],
                           penalize := [] } }
      else if vix < 18 ∧ spy_trend then
        { regime := "risk_on", score := 15,
          reasoning := "VIX bajo, mercado en tendencia alcista. Buen entorno para longs.",
          sector_bias := { boost := ["tech", "consumer_discretionary", "semiconductors"],
                           penalize := [] } }
      else if 25 < vix ∨ (20 < vix ∧ ¬spy_trend) then
        { regime := "risk_off", score := if vix < 30 then 5 else 0,
          reasoning := "VIX alto, mercado en modo defensivo. Solo trend following en activos refugio.",
          sector_bias := { boost := ["utilities", "healthcare", "staples"],
                           penalize := ["tech", "growth", "small_caps"] } }
      else
        { regime := "neutral", score := 10,
          reasoning := "VIX moderado, condiciones mixtas. Operar solo setups de alta convicción.",
          sector_bias := { boost := [], penalize := [] } }
  -- sp500_change is read by the source but not used in the branching
  -- (kept for fidelity to the source's locals)

/-- any(b.lower() in sector_lower for b in pats). -/
def biasMatches (pats : List String) (sector_lower : String) : Bool :=
  pats.any (fun b => containsSub (strLower b) sector_lower)

/-- regime_detector.apply_sector_adjustment.  Nat subtraction models the
source's max(base_score - 10, 0). -/
def apply_sector_adjustment (base_score : ℕ) (sector : Option String)
    (regime_info : RegimeResult) : ℕ :=
  match sector with
  | none => base_score
  | some s =>
      if s = "" then base_score
      else
        let sector_lower := strLower s
        if biasMatches regime_info.sector_bias.boost sector_lower then
          min (base_score + 5) 100
        else if biasMatches regime_info.sector_bias.penalize sector_lower then
          base_score - 10
        else base_score

structure TurtlesSignals where
  breakout : Bool
  volume_confirmed : Bool
  atr_pct : ℚ
  volume_ratio : ℚ
deriving DecidableEq, Repr

structure TurtlesResult where
  style : String
  score : ℕ
  max_score : ℕ
  reasoning : List String
  signals : TurtlesSignals
deriving DecidableEq, Repr

/-- a score-and-reasoning step that first performs a division (and so can
raise like the source's interpolated percentages). -/
def withDiv (a b : ℚ) (f : ℚ → ℕ × String) : Except String (ℕ × String) :=
  match fdiv a b with
  | .ok q => .ok (f q)
  | .error e => .error e

/-- turtles block 1: breakout de 20 días (10 puntos).  The interpolated
percentage divides by high_20d without a guard, so the block can raise. -/
def breakoutBlock (price high_20d : ℚ) : Except String (ℕ × String) :=
  if high_20d < price then
    withDiv (price - high_20d) high_20d
      (fun _pct_above => (10, "✓ Breakout: precio > máximo 20d"))
  else if high_20d * 0.98 ≤ price then
    withDiv (high_20d - price) high_20d
      (fun _pct_below => (5, "~ Cerca del breakout: bajo máximo 20d"))
  else
    withDiv (high_20d - price) high_20d
      (fun _pct_below => (0, "✗ Sin breakout: bajo máximo 20d"))

/-- turtles block 2: confirmación de volumen (8 puntos). -/
def volumeBlock (vr : ℚ) : ℕ × String :=
  if 1.5 < vr then (8, "✓ Volumen sobre promedio (confirmación fuerte)")
  else if 1.2 < vr then (4, "~ Volumen sobre promedio (confirmación débil)")
  else (0, "✗ Volumen insuficiente")

/-- turtles block 3: no sobreextendido (4 puntos); solo divide en breakout. -/
def extensionBlock (price high_20d : ℚ) : Except String (ℕ × String) :=
  if high_20d < price then
    withDiv (price - high_20d) high_20d (fun q =>
      let extension := q * 100
      if extension < 5 then (4, "✓ Entrada temprana: sobre breakout")
      else if extension < 10 then (2, "~ Extensión moderada: sobre breakout")
      else (0, "✗ Sobreextendido: sobre breakout (chase risk)"))
  else .ok (2, "~ Sin sobreextensión (no hay breakout activo)")

/-- turtles block 4: ATR favorable (3 puntos). -/
def atrBlock (price atr : ℚ) : ℕ × String :=
  if 0 < price ∧ 0 < atr then
    let atr_pct := atr / price * 100
    if 2 ≤ atr_pct ∧ atr_pct ≤ 6 then (3, "✓ ATR — stop manejable")
    else if 1 ≤ atr_pct ∧ atr_pct < 2 then (1, "~ ATR — poco movimiento")
    else if 6 < atr_pct ∧ atr_pct ≤ 8 then (1, "~ ATR — volátil pero manejable")
    else if 8 < atr_pct then (0, "✗ ATR — muy volátil")
    else (0, "✗ ATR — muy bajo")
  else (0, "✗ Sin datos de ATR")

/-- turtles.evaluate_turtles.  The first raising block wins, matching the
order in which the source evaluates them. -/
def evaluate_turtles (ticker_data : TickerData) : Except String TurtlesResult :=
  let price := ticker_data.price.getD 0
  let high_20d := ticker_data.high_20d.getD price
  let avg_volume := ticker_data.avg_volume_20d.getD 1
  let current_volume := ticker_data.volume.getD 0
  let atr := ticker_data.atr_14.getD 0
  let volume_ratio := if 0 < avg_volume then current_volume / avg_volume else 1
  match breakoutBlock price high_20d, extensionBlock price high_20d with
  | .ok b1, .ok b3 =>
      let b2 := volumeBlock volume_ratio
      let b4 := atrBlock price atr
      .ok { style := "turtles",
            score := b1.1 + b2.1 + b3.1 + b4.1,
            max_score := 25,
            reasoning := [b1.2, b2.2, b3.2, b4.2],
            signals := { breakout := decide (high_20d < price),
                         volume_confirmed := decide (1.5 < volume_ratio),
                         atr_pct := if 0 < price ∧ 0 < atr then atr / price * 100 else 0,
                         volume_ratio := volume_ratio } }
  | .error e, _ => .error e
  | _, .error e => .error e

structure SeykotaSignals where
  trend_aligned : Bool
  momentum_10d : ℚ
  above_ema20 : Bool
  emas_golden : Bool
deriving DecidableEq, Repr

structure SeykotaResult where
  style : String
  score : ℕ
  max_score : ℕ
  reasoning : List String
  signals : SeykotaSignals
deriving DecidableEq, Repr

/-- seykota block 1: precio sobre EMA corta (6 puntos). -/
def priceEmaBlock (price ema_20 : ℚ) : ℕ × String :=
  if 0 < price ∧ 0 < ema_20 then
    if ema_20 < price then (6, "✓ Precio > EMA20 (tendencia corto plazo alcista)")
    else if ema_20 * 0.97 ≤ price then (3, "~ Precio cerca de EMA20 (soporte clave)")
    else (0, "✗ Precio < EMA20 (debilidad corto plazo)")
  else (0, "✗ Sin datos de EMA20")

/-- seykota block 2: estructura EMA20/EMA50 (6 puntos). -/
def emaStructureBlock (ema_20 ema_50 : ℚ) : ℕ × String :=
  if 0 < ema_20 ∧ 0 < ema_50 then
    if ema_50 < ema_20 then (6, "✓ EMA20 > EMA50 (estructura alcista)")
    else (0, "✗ EMA20 < EMA50 (cruce bajista)")
  else (0, "✗ Sin datos de EMAs para estructura")

/-- seykota block 3: tendencia de largo plazo (4 puntos). -/
def longTermBlock (ema_50 ema_200 : ℚ) : ℕ × String :=
  if 0 < ema_50 ∧ 0 < ema_200 then
    if ema_200 < ema_50 then (4, "✓ EMA50 > EMA200 (tendencia mayor alcista)")
    else (0, "✗ EMA50 < EMA200 (tendencia mayor bajista — contracorriente)")
  else if 0 < ema_50 then (2, "~ Sin EMA200 (asumiendo tendencia neutral)")
  else (0, "✗ Sin datos de EMAs largas")

/-- seykota block 4: momentum reciente (4 puntos). -/
def momentumBlock (price price_10d_ago : ℚ) : ℕ × String :=
  if 0 < price ∧ 0 < price_10d_ago then
    let momentum := (price - price_10d_ago) / price_10d_ago * 100
    if 5 < momentum then (4, "✓ Momentum fuerte en 10d")
    else if 2 < momentum then (3, "✓ Momentum positivo en 10d")
    else if 0 < momentum then (2, "~ Momentum leve en 10d")
    else if -3 < momentum then (1, "~ Momentum casi plano en 10d")
    else (0, "✗ Momentum negativo en 10d")
  else (0, "✗ Sin datos de momentum")

/-- seykota.evaluate_seykota. -/
def evaluate_seykota (ticker_data : TickerData) : SeykotaResult :=
  let price := ticker_data.price.getD 0
  let ema_20 := ticker_data.ema_20.getD 0
  let ema_50 := ticker_data.ema_50.getD 0
  let ema_200 := ticker_data.ema_200.getD 0
  let price_10d_ago := ticker_data.price_10d_ago.getD price
  let b1 := priceEmaBlock price ema_20
  let b2 := emaStructureBlock ema_20 ema_50
  let b3 := longTermBlock ema_50 ema_200
  let b4 := momentumBlock price price_10d_ago
  let trend_aligned :=
    if 0 < price ∧ 0 < ema_20 ∧ 0 < ema_50 ∧ 0 < ema_200 then
      decide (ema_20 < price) && decide (ema_50 < ema_20) && decide (ema_200 < ema_50)
    else false
  { style := "seykota",
    score := b1.1 + b2.1 + b3.1 + b4.1,
    max_score := 20,
    reasoning := [b1.2, b2.2, b3.2, b4.2],
    signals := { trend_aligned := trend_aligned,
                 momentum_10d := if 0 < price_10d_ago then (price - price_10d_ago) / price_10d_ago * 100 else 0,
                 above_ema20 := if 0 < ema_20 then decide (ema_20 < price) else false,
                 emas_golden := if 0 < ema_20 ∧ 0 < ema_50 then decide (ema_50 < ema_20) else false } }

/-- CATALYST_SCORES, in the source dictionary's insertion order. -/
def CATALYST_SCORES : List (String × ℕ) :=
  [("fda_decision", 8), ("fda_approval", 8), ("fda", 8),
   ("earnings_beat_history", 8),
   ("m&a_rumor", 7), ("m&a", 7), ("merger", 7), ("acquisition", 7),
   ("earnings", 6), ("product_launch", 6), ("investor_day", 5),
   ("conference", 4), ("macro_event", 4),
   ("analyst_upgrade", 5), ("buyback", 5),
   ("rumor", 2), ("speculation", 2), ("unknown", 2)]

/-- catalyst block 1: first key of CATALYST_SCORES occurring inside
catalyst_type wins; default 2 for unmatched types. -/
def catTypePoints (catalyst_type : String) : ℕ :=
  match CATALYST_SCORES.find? (fun kv => containsSub kv.1 catalyst_type) with
  | some kv => kv.2
  | none => 2

/-- catalyst block 2: proximidad temporal (7 puntos). -/
def timingPoints (days_to_event : ℤ) : ℕ × String :=
  if 3 ≤ days_to_event ∧ days_to_event ≤ 7 then (7, "✓ Timing óptimo")
  else if 1 ≤ days_to_event ∧ days_to_event ≤ 14 then (4, "~ Timing aceptable")
  else if 14 < days_to_event ∧ days_to_event < 30 then (2, "~ Evento algo lejano (capital inmovilizado)")
  else if 30 ≤ days_to_event then (1, "✗ Evento muy lejano")
  else (2, "~ Evento inminente o pasado")

/-- catalyst block 3: historial de reacción (5 puntos). -/
def histPoints (historical_reaction : ℚ) : ℕ × String :=
  if 10 ≤ historical_reaction then (5, "✓ Historial: mueve mucho en eventos similares")
  else if 5 ≤ historical_reaction then (3, "~ Historial: mueve en eventos similares")
  else if 0 < historical_reaction then (1, "✗ Historial de baja reactividad")
  else (2, "~ Sin datos históricos de reacción a eventos")

/-- catalyst block 4: asimetría de expectativas (5 puntos). -/
def expectPoints (expectations catalyst_type : String) : ℕ × String :=
  if expectations = "low" ∧ ["earnings", "fda_decision", "fda", "product_launch"].contains catalyst_type then
    (5, "✓ Expectativas bajas → potencial sorpresa positiva")
  else if expectations = "neutral" then (3, "~ Expectativas neutrales")
  else if expectations = "high" then (1, "✗ Expectativas altas → upside limitado")
  else (3, "~ Expectativas desconocidas (asumiendo neutral)")

/-- days_to_event derivation; a days_ahead of 0 is falsy in the source and
falls through to days_to_event. -/
def catalystDays (ci : CatalystInfo) : ℤ :=
  match ci.days_ahead with
  | some d => if d = 0 then ci.days_to_event.getD 999 else d
  | none => ci.days_to_event.getD 999

/-- the source tests "if not catalyst_info": an empty dictionary is falsy. -/
def CatalystInfo.isEmpty (ci : CatalystInfo) : Bool :=
  ci.type.isNone && ci.days_ahead.isNone && ci.days_to_event.isNone &&
    ci.consensus_sentiment.isNone

structure CatalystSignals where
  catalyst_type : String
  days_to_event : ℤ
  historical_avg_move : ℚ
  expectations : Option String
deriving DecidableEq, Repr

structure CatalystResult where
  style : String
  score : ℕ
  max_score : ℕ
  reasoning : List String
  signals : CatalystSignals
deriving DecidableEq, Repr

/-- fixed result for an absent (or empty, hence falsy) catalyst_info. -/
def neutralCatalystResult : CatalystResult :=
  { style := "catalyst", score := 12, max_score := 25,
    reasoning := ["~ Sin catalizador identificado — scoring basado en setup técnico"],
    signals := { catalyst_type := "none", days_to_event := 999,
                 historical_avg_move := 0, expectations := none } }

/-- catalyst.evaluate_catalyst. -/
def evaluate_catalyst (ticker_data : TickerData) (catalyst_info : Option CatalystInfo) :
    CatalystResult :=
  match catalyst_info with
  | none => neutralCatalystResult
  | some ci =>
      if CatalystInfo.isEmpty ci then neutralCatalystResult
      else
        let catalyst_type := strLower (ci.type.getD "unknown")
        let days_to_event := catalystDays ci
        let expectations := strLower (ci.consensus_sentiment.getD "neutral")
        let historical_reaction := ticker_data.historical_earnings_reaction.getD 0
        let cat_score := catTypePoints catalyst_type
        let t := timingPoints days_to_event
        let h := histPoints historical_reaction
        let e := expectPoints expectations catalyst_type
        { style := "catalyst",
          score := cat_score + t.1 + h.1 + e.1,
          max_score := 25,
          reasoning := [(if 6 ≤ cat_score then "✓" else "~") ++ " Catalizador: " ++ catalyst_type,
                        t.2, h.2, e.2],
          signals := { catalyst_type := catalyst_type,
                       days_to_event := days_to_event,
                       historical_avg_move := historical_reaction,
                       expectations := some expectations } }

structure RRSignals where
  rr_ratio : ℚ
  stop_atr_multiple : ℚ
  suggested_position_eur : ℚ
  risk_eur : ℚ
  stop_pct : ℚ
deriving DecidableEq, Repr

structure RiskRewardResult where
  style : String
  score : ℕ
  max_score : ℕ
  reasoning : List String
  signals : RRSignals
  hard_reject : Bool
deriving DecidableEq, Repr

/-- risk_reward block 1: R/R ratio, core del edge (8 puntos). -/
def rrPoints (rr : ℚ) : ℕ × String :=
  if 4 ≤ rr then (8, "✓ R/R excelente")
  else if 3 ≤ rr then (6, "✓ R/R aceptable (mínimo requerido)")
  else if 2 ≤ rr then (3, "~ R/R marginal (bajo mínimo recomendado)")
  else (0, "✗ R/R insuficiente — NO OPERAR")

/-- risk_reward block 2: stop basado en ATR, estructura vs arbitrario
(4 puntos); sin ATR, stop como porcentaje del entry. -/
def stopStructurePoints (atr price risk entry_price : ℚ) : ℕ × String :=
  if 0 < atr ∧ 0 < price then
    let stop_in_atr := risk / atr
    if 1.5 ≤ stop_in_atr ∧ stop_in_atr ≤ 2.5 then (4, "✓ Stop en ATR (bien estructurado)")
    else if 1 ≤ stop_in_atr ∧ stop_in_atr ≤ 3 then (2, "~ Stop en ATR (aceptable)")
    else if stop_in_atr < 1 then (0, "✗ Stop muy ajustado — ruido puede sacarte")
    else (0, "✗ Stop muy amplio — riesgo excesivo")
  else
    let stop_pct := risk / entry_price * 100
    if stop_pct ≤ 7 then (2, "~ Stop sin datos de ATR (asumiendo razonable)")
    else (0, "✗ Stop sin datos de ATR para validar")

/-- risk_reward block 3: validación de sizing (3 puntos); also yields the
position_value used by the signals. -/
def sizingBlock (risk entry_price capital : ℚ) (leverage : ℤ) : ℕ × String × ℚ :=
  let max_risk_eur := capital * 0.02
  let exposure_total := capital * (leverage : ℚ)
  if 0 < risk then
    let shares_by_risk := max_risk_eur / risk
    let position_value := shares_by_risk * entry_price
    if position_value ≤ exposure_total then (3, "✓ Sizing viable", position_value)
    else if position_value ≤ exposure_total * 1.2 then (1, "~ Sizing ajustado", position_value)
    else (0, "✗ Sizing excede capacidad", position_value)
  else (0, "✗ No se puede calcular sizing (riesgo inválido)", 0)

/-- risk_reward.evaluate_risk_reward. -/
def evaluate_risk_reward (ticker_data : TickerData)
    (entry_price stop_price target_price : ℚ)
    (capital : ℚ := 500) (leverage : ℤ := 5) : RiskRewardResult :=
  let atr := ticker_data.atr_14.getD 0
  let price := ticker_data.price.getD entry_price
  if entry_price ≤ 0 ∨ stop_price ≤ 0 ∨ target_price ≤ 0 then
    { style := "risk_reward", score := 0, max_score := 15,
      reasoning := ["✗ Precios inválidos para cálculo de R/R"],
      signals := { rr_ratio := 0, stop_atr_multiple := 0,
                   suggested_position_eur := 0, risk_eur := 0, stop_pct := 0 },
      hard_reject := true }
  else
    let risk := entry_price - stop_price
    let reward := target_price - entry_price
    if risk ≤ 0 then
      { style := "risk_reward", score := 0, max_score := 15,
        reasoning := ["✗ Stop loss inválido (debe estar por debajo del entry)"],
        signals := { rr_ratio := 0, stop_atr_multiple := 0,
                     suggested_position_eur := 0, risk_eur := capital * 0.02, stop_pct := 0 },
        hard_reject := true }
    else
      let rr := reward / risk
      let b1 := rrPoints rr
      let b2 := stopStructurePoints atr price risk entry_price
      let b3 := sizingBlock risk entry_price capital leverage
      let position_value := b3.2.2
      let exposure_total := capital * (leverage : ℚ)
      { style := "risk_reward",
        score := b1.1 + b2.1 + b3.1,
        max_score := 15,
        reasoning := [b1.2, b2.2, b3.2.1],
        signals := { rr_ratio := round2 rr,
                     stop_atr_multiple := if 0 < atr then round2 (risk / atr) else 0,
                     suggested_position_eur :=
                       if 0 < position_value then min position_value exposure_total else 0,
                     risk_eur := capital * 0.02,
                     stop_pct := round2 (risk / entry_price * 100) },
        hard_reject := decide (rr < 3) }

structure Breakdown where
  regime : ℕ
  turtles : ℕ
  seykota : ℕ
  catalyst : ℕ
  risk_reward : ℕ
  sector_adjustment : ℤ
  raw_score : ℕ
deriving DecidableEq, Repr

structure TradeParams where
  entry : ℚ
  stop : ℚ
  target : ℚ
  rr_ratio : ℚ
  position_eur : ℚ
  stop_pct : ℚ
  target_pct : ℚ
deriving DecidableEq, Repr

/-- per-component reasoning map.  (The source stores the regime's reasoning
as a bare string next to per-evaluator lists; a one-element list is used
here so the field has one type.) -/
structure ReasoningMap where
  regime : List String
  turtles : List String
  seykota : List String
  catalyst : List String
  risk_reward : List String
deriving DecidableEq, Repr

structure AggSignals where
  regime_type : String
  turtles : TurtlesSignals
  seykota : SeykotaSignals
  catalyst : CatalystSignals
  risk_reward : RRSignals
deriving DecidableEq, Repr

structure CommitteeDecision where
  ticker : String
  decision : String
  decision_reason : String
  final_score : ℕ
  regime : RegimeResult
  breakdown : Breakdown
  reasoning : ReasoningMap
  trade_params : TradeParams
  signals : Option AggSignals
deriving DecidableEq, Repr

/-- aggregator._error_result (signals is the source's empty dictionary). -/
def error_result (ticker error_msg : String) : CommitteeDecision :=
  { ticker := ticker, decision := "SKIP", decision_reason := error_msg,
    final_score := 0,
    regime := { regime := "unknown", score := 0, reasoning := error_msg,
                sector_bias := { boost := [], penalize := [] } },
    breakdown := { regime := 0, turtles := 0, seykota := 0, catalyst := 0,
                   risk_reward := 0, sector_adjustment := 0, raw_score := 0 },
    reasoning := { regime := [error_msg], turtles := [], seykota := [],
                   catalyst := [], risk_reward := [] },
    trade_params := { entry := 0, stop := 0, target := 0, rr_ratio := 0,
                      position_eur := 0, stop_pct := 0, target_pct := 0 },
    signals := none }

/-- stop derivation when no stop is supplied (aggregator lines 62-78). -/
def deriveStop (ticker_data : TickerData) (price : ℚ) : ℚ :=
  let atr := ticker_data.atr_14.getD 0
  let beta := ticker_data.beta.getD 1.5
  if 0 < atr then price - atr * 2
  else
    let stop_pct : ℚ := if 2 ≤ beta then 10 else if 1.5 ≤ beta then 8 else 6
    price * (1 - stop_pct / 100)

/-- target derivation when no target is supplied (aggregator lines 80-87);
the source tests "change_pct and change_pct > 2", so a falsy 0 is excluded
explicitly. -/
def deriveTarget (ticker_data : TickerData) (price : ℚ) : ℚ :=
  let change_pct := ticker_data.change_pct.getD 0
  let target_pct : ℚ := if change_pct ≠ 0 ∧ 2 < change_pct then 20 else 15
  price * (1 + target_pct / 100)

/-- effective entry used by the aggregator. -/
def effEntry (ticker_data : TickerData) (entry : Option ℚ) : ℚ :=
  entry.getD (ticker_data.price.getD 0 * 0.995)

/-- effective stop used by the aggregator. -/
def effStop (ticker_data : TickerData) (stop : Option ℚ) : ℚ :=
  stop.getD (deriveStop ticker_data (ticker_data.price.getD 0))

/-- effective target used by the aggregator. -/
def effTarget (ticker_data : TickerData) (target : Option ℚ) : ℚ :=
  target.getD (deriveTarget ticker_data (ticker_data.price.getD 0))

/-- aggregator.evaluate_opportunity.  The unchecked divisions it can reach
are the ones inside evaluate_turtles and the target_pct percentage, which
divides by the effective entry. -/
def evaluate_opportunity (ticker : String) (ticker_data : TickerData)
    (market_data : MarketData) (catalyst_info : Option CatalystInfo := none)
    (entry : Option ℚ := none) (stop : Option ℚ := none) (target : Option ℚ := none)
    (capital : ℚ := 500) (leverage : ℤ := 5) : Except String CommitteeDecision :=
  let price := ticker_data.price.getD 0
  if price ≤ 0 then .ok (error_result ticker "No hay datos de precio")
  else
    let entry := effEntry ticker_data entry
    let stop := effStop ticker_data stop
    let target := effTarget ticker_data target
    let regime := detect_regime market_data
    match evaluate_turtles ticker_data with
    | .error e => .error e
    | .ok turtles =>
      match fdiv ((target - entry) * 100) entry with
      | .error e => .error e
      | .ok target_pct =>
        let seykota := evaluate_seykota ticker_data
        let catalyst := evaluate_catalyst ticker_data catalyst_info
        let risk_reward := evaluate_risk_reward ticker_data entry stop target capital leverage
        let raw_score := regime.score + turtles.score + seykota.score +
          catalyst.score + risk_reward.score
        let final_score := apply_sector_adjustment raw_score ticker_data.sector regime
        let sector_adjustment : ℤ := (final_score : ℤ) - (raw_score : ℤ)
        let hard_reject := risk_reward.hard_reject
        let dr : String × String :=
          if hard_reject then
            ("REJECT", "R/R < 3:1 — no cumple mínimo obligatorio")
          else if 75 ≤ final_score then
            ("BUY", "Score " ++ toString final_score ++ "/100 — oportunidad de alta convicción")
          else if 60 ≤ final_score then
            ("WATCHLIST", "Score " ++ toString final_score ++ "/100 — monitorear para mejor entrada")
          else
            ("SKIP", "Score " ++ toString final_score ++ "/100 — insuficiente convicción")
        let sig := risk_reward.signals
        .ok { ticker := ticker, decision := dr.1, decision_reason := dr.2,
              final_score := final_score,
              regime := regime,
              breakdown := { regime := regime.score, turtles := turtles.score,
                             seykota := seykota.score, catalyst := catalyst.score,
                             risk_reward := risk_reward.score,
                             sector_adjustment := sector_adjustment,
                             raw_score := raw_score },
              reasoning := { regime := [regime.reasoning], turtles := turtles.reasoning,
                             seykota := seykota.reasoning, catalyst := catalyst.reasoning,
                             risk_reward := risk_reward.reasoning },
              trade_params := { entry := round2 entry, stop := round2 stop,
                                target := round2 target,
                                rr_ratio := RRSignals.rr_ratio sig,
                                position_eur := sig.suggested_position_eur,
                                stop_pct := sig.stop_pct,
                                target_pct := round2 target_pct },
              signals := some { regime_type := regime.regime, turtles := turtles.signals,
                                seykota := seykota.signals,
                                catalyst := catalyst.signals,
                                risk_reward := sig } }

/-! ## Inversion and bound lemmas for the evaluators -/

lemma withDiv_ok {a b : ℚ} {f : ℚ → ℕ × String} {s : ℕ × String}
    (h : withDiv a b f = .ok s) : b ≠ 0 ∧ s = f (a / b) := by
  unfold withDiv fdiv at h
  split_ifs at h with hb
  all_goals simp_all

lemma withDiv_of_nonzero (a : ℚ) {b : ℚ} (hb : b ≠ 0) (f : ℚ → ℕ × String) :
    withDiv a b f = .ok (f (a / b)) := by
  unfold withDiv fdiv
  rw [if_neg hb]

lemma breakoutBlock_fst {p h : ℚ} {b : ℕ × String}
    (hb : breakoutBlock p h = .ok b) : b.1 = 10 ∨ b.1 = 5 ∨ b.1 = 0 := by
  unfold breakoutBlock at hb
  split_ifs at hb <;> rcases (withDiv_ok hb).2 with rfl <;> simp

lemma extensionBlock_fst {p h : ℚ} {b : ℕ × String}
    (hb : extensionBlock p h = .ok b) : b.1 ≤ 4 := by
  unfold extensionBlock at hb
  split_ifs at hb
  · rcases (withDiv_ok hb).2 with rfl
    simp only
    split_ifs <;> norm_num
  · simp at hb
    rcases hb with rfl
    norm_num

lemma volumeBlock_fst (vr : ℚ) : (volumeBlock vr).1 ≤ 8 := by
  unfold volumeBlock; split_ifs <;> norm_num

lemma atrBlock_fst (p a : ℚ) : (atrBlock p a).1 ≤ 3 := by
  simp only [atrBlock]
  split_ifs <;> norm_num

/-- the computation evaluate_turtles performs when neither raising block
raises, as an equation. -/
lemma evaluate_turtles_eq (td : TickerData) {b1 b3 : ℕ × String}
    (h1 : breakoutBlock (td.price.getD 0) (td.high_20d.getD (td.price.getD 0)) = .ok b1)
    (h3 : extensionBlock (td.price.getD 0) (td.high_20d.getD (td.price.getD 0)) = .ok b3) :
    evaluate_turtles td =
      .ok { style := "turtles",
            score := b1.1 +
              (volumeBlock (if 0 < td.avg_volume_20d.getD 1 then
                td.volume.getD 0 / td.avg_volume_20d.getD 1 else 1)).1 +
              b3.1 + (atrBlock (td.price.getD 0) (td.atr_14.getD 0)).1,
            max_score := 25,
            reasoning := [b1.2,
              (volumeBlock (if 0 < td.avg_volume_20d.getD 1 then
                td.volume.getD 0 / td.avg_volume_20d.getD 1 else 1)).2,
              b3.2, (atrBlock (td.price.getD 0) (td.atr_14.getD 0)).2],
            signals := { breakout := decide (td.high_20d.getD (td.price.getD 0) < td.price.getD 0),
                         volume_confirmed := decide (1.5 < (if 0 < td.avg_volume_20d.getD 1 then
                           td.volume.getD 0 / td.avg_volume_20d.getD 1 else 1)),
                         atr_pct := if 0 < td.price.getD 0 ∧ 0 < td.atr_14.getD 0 then
                           td.atr_14.getD 0 / td.price.getD 0 * 100 else 0,
                         volume_ratio := if 0 < td.avg_volume_20d.getD 1 then
                           td.volume.getD 0 / td.avg_volume_20d.getD 1 else 1 } } := by
  simp only [evaluate_turtles]
  rw [h1, h3]

/-- inversion for a successful evaluate_turtles. -/
lemma evaluate_turtles_ok {td : TickerData} {r : TurtlesResult}
    (h : evaluate_turtles td = .ok r) :
    ∃ b1 b3 : ℕ × String,
      breakoutBlock (td.price.getD 0) (td.high_20d.getD (td.price.getD 0)) = .ok b1 ∧
      extensionBlock (td.price.getD 0) (td.high_20d.getD (td.price.getD 0)) = .ok b3 ∧
      r.score = b1.1 +
        (volumeBlock (if 0 < td.avg_volume_20d.getD 1 then
          td.volume.getD 0 / td.avg_volume_20d.getD 1 else 1)).1 +
        b3.1 + (atrBlock (td.price.getD 0) (td.atr_14.getD 0)).1 ∧
      r.max_score = 25 ∧
      r.signals.breakout = decide (td.high_20d.getD (td.price.getD 0) < td.price.getD 0) := by
  rcases hb1 : breakoutBlock (td.price.getD 0) (td.high_20d.getD (td.price.getD 0)) with e1 | b1
  · simp only [evaluate_turtles] at h
    rw [hb1] at h
    exact absurd h (by simp)
  · rcases hb3 : extensionBlock (td.price.getD 0) (td.high_20d.getD (td.price.getD 0)) with e3 | b3
    · simp only [evaluate_turtles] at h
      rw [hb1, hb3] at h
      exact absurd h (by simp)
    · rw [evaluate_turtles_eq td hb1 hb3] at h
      simp only [Except.ok.injEq] at h
      refine ⟨b1, b3, rfl, rfl, ?_, ?_, ?_⟩ <;> rw [← h]

lemma detect_regime_score_le (md : MarketData) : (detect_regime md).score ≤ 15 := by
  rcases md with ⟨vix, sp, spy, adr⟩
  cases vix
  · norm_num [detect_regime]
  · simp only [detect_regime]
    split_ifs <;> norm_num

lemma priceEmaBlock_fst (p e : ℚ) : (priceEmaBlock p e).1 ≤ 6 := by
  simp only [priceEmaBlock]
  split_ifs <;> norm_num

lemma emaStructureBlock_fst (a b : ℚ) : (emaStructureBlock a b).1 ≤ 6 := by
  simp only [emaStructureBlock]
  split_ifs <;> norm_num

lemma longTermBlock_fst (a b : ℚ) : (longTermBlock a b).1 ≤ 4 := by
  simp only [longTermBlock]
  split_ifs <;> norm_num

lemma momentumBlock_fst (p q : ℚ) : (momentumBlock p q).1 ≤ 4 := by
  simp only [momentumBlock]
  split_ifs <;> norm_num

lemma evaluate_seykota_score_le (td : TickerData) : (evaluate_seykota td).score ≤ 20 := by
  have h1 := priceEmaBlock_fst (td.price.getD 0) (td.ema_20.getD 0)
  have h2 := emaStructureBlock_fst (td.ema_20.getD 0) (td.ema_50.getD 0)
  have h3 := longTermBlock_fst (td.ema_50.getD 0) (td.ema_200.getD 0)
  have h4 := momentumBlock_fst (td.price.getD 0) (td.price_10d_ago.getD (td.price.getD 0))
  simp only [evaluate_seykota]
  omega

lemma catTypePoints_le (s : String) : catTypePoints s ≤ 8 := by
  simp only [catTypePoints]
  rcases hf : CATALYST_SCORES.find? (fun kv => containsSub kv.1 s) with _ | kv
  · rw [hf]; norm_num
  · rw [hf]
    have hmem : kv ∈ CATALYST_SCORES := List.mem_of_find?_eq_some hf
    have hall : ∀ x ∈ CATALYST_SCORES, x.2 ≤ 8 := by decide
    exact hall kv hmem

lemma timingPoints_fst (d : ℤ) : (timingPoints d).1 ≤ 7 := by
  simp only [timingPoints]
  split_ifs <;> norm_num

lemma histPoints_fst (h : ℚ) : (histPoints h).1 ≤ 5 := by
  simp only [histPoints]
  split_ifs <;> norm_num

lemma expectPoints_fst (e s : String) : (expectPoints e s).1 ≤ 5 := by
  simp only [expectPoints]
  split_ifs <;> norm_num

/-- the score evaluate_catalyst computes for a non-empty catalyst_info. -/
lemma evaluate_catalyst_score_some (td : TickerData) (ci : CatalystInfo)
    (h : CatalystInfo.isEmpty ci = false) :
    (evaluate_catalyst td (some ci)).score =
      catTypePoints (strLower (ci.type.getD "unknown")) +
      (timingPoints (catalystDays ci)).1 +
      (histPoints (td.historical_earnings_reaction.getD 0)).1 +
      (expectPoints (strLower (ci.consensus_sentiment.getD "neutral"))
        (strLower (ci.type.getD "unknown"))).1 := by
  simp only [evaluate_catalyst]
  rw [if_neg (by simp [h])]

lemma evaluate_catalyst_score_le (td : TickerData) (ci : Option CatalystInfo) :
    (evaluate_catalyst td ci).score ≤ 25 := by
  rcases ci with _ | ci
  · simp [evaluate_catalyst, neutralCatalystResult]
  · rcases he : CatalystInfo.isEmpty ci with _ | _
    · rw [evaluate_catalyst_score_some td ci he]
      have h1 := catTypePoints_le (strLower (ci.type.getD "unknown"))
      have h2 := timingPoints_fst (catalystDays ci)
      have h3 := histPoints_fst (td.historical_earnings_reaction.getD 0)
      have h4 := expectPoints_fst (strLower (ci.consensus_sentiment.getD "neutral"))
        (strLower (ci.type.getD "unknown"))
      omega
    · simp [evaluate_catalyst, he, neutralCatalystResult]

lemma rrPoints_fst (r : ℚ) : (rrPoints r).1 ≤ 8 := by
  simp only [rrPoints]
  split_ifs <;> norm_num

lemma stopStructurePoints_fst (a p r e : ℚ) : (stopStructurePoints a p r e).1 ≤ 4 := by
  simp only [stopStructurePoints]
  split_ifs <;> norm_num

lemma sizingBlock_fst (r e c : ℚ) (l : ℤ) : (sizingBlock r e c l).1 ≤ 3 := by
  simp only [sizingBlock]
  split_ifs <;> norm_num

/-- the computation evaluate_risk_reward performs once both input
validations pass, as an equation. -/
lemma evaluate_risk_reward_eq (td : TickerData) (e s t capital : ℚ) (lev : ℤ)
    (he : ¬(e ≤ 0 ∨ s ≤ 0 ∨ t ≤ 0)) (hrisk : ¬(e - s ≤ 0)) :
    evaluate_risk_reward td e s t capital lev =
      { style := "risk_reward",
        score := (rrPoints ((t - e) / (e - s))).1 +
          (stopStructurePoints (td.atr_14.getD 0) (td.price.getD e) (e - s) e).1 +
          (sizingBlock (e - s) e capital lev).1,
        max_score := 15,
        reasoning := [(rrPoints ((t - e) / (e - s))).2,
          (stopStructurePoints (td.atr_14.getD 0) (td.price.getD e) (e - s) e).2,
          (sizingBlock (e - s) e capital lev).2.1],
        signals := { rr_ratio := round2 ((t - e) / (e - s)),
                     stop_atr_multiple := if 0 < td.atr_14.getD 0 then
                       round2 ((e - s) / td.atr_14.getD 0) else 0,
                     suggested_position_eur :=
                       if 0 < (sizingBlock (e - s) e capital lev).2.2 then
                         min ((sizingBlock (e - s) e capital lev).2.2) (capital * (lev : ℚ))
                       else 0,
                     risk_eur := capital * 0.02,
                     stop_pct := round2 ((e - s) / e * 100) },
        hard_reject := decide ((t - e) / (e - s) < 3) } := by
  simp only [evaluate_risk_reward]
  rw [if_neg he, if_neg hrisk]

lemma evaluate_risk_reward_score_le (td : TickerData) (e s t capital : ℚ) (lev : ℤ) :
    (evaluate_risk_reward td e s t capital lev).score ≤ 15 := by
  by_cases he : e ≤ 0 ∨ s ≤ 0 ∨ t ≤ 0
  · simp only [evaluate_risk_reward]
    rw [if_pos he]
    norm_num
  · by_cases hrisk : e - s ≤ 0
    · simp only [evaluate_risk_reward]
      rw [if_neg he, if_pos hrisk]
      norm_num
    · rw [evaluate_risk_reward_eq td e s t capital lev he hrisk]
      have h1 := rrPoints_fst ((t - e) / (e - s))
      have h2 := stopStructurePoints_fst (td.atr_14.getD 0) (td.price.getD e) (e - s) e
      have h3 := sizingBlock_fst (e - s) e capital lev
      show (rrPoints ((t - e) / (e - s))).1 +
        (stopStructurePoints (td.atr_14.getD 0) (td.price.getD e) (e - s) e).1 +
        (sizingBlock (e - s) e capital lev).1 ≤ 15
      omega

lemma evaluate_risk_reward_max (td : TickerData) (e s t capital : ℚ) (lev : ℤ) :
    (evaluate_risk_reward td e s t capital lev).max_score = 15 := by
  by_cases he : e ≤ 0 ∨ s ≤ 0 ∨ t ≤ 0
  · simp only [evaluate_risk_reward]
    rw [if_pos he]
  · by_cases hrisk : e - s ≤ 0
    · simp only [evaluate_risk_reward]
      rw [if_neg he, if_pos hrisk]
    · rw [evaluate_risk_reward_eq td e s t capital lev he hrisk]

/-- score of a possibly-raising turtles evaluation: the returned score when
it returns, 0 on the raising inputs. -/
def turtlesScoreOf (x : Except String TurtlesResult) : ℕ :=
  match x with
  | .ok r => r.score
  | .error _ => 0

/-- max_score of a possibly-raising turtles evaluation; 25 on the raising
inputs, where the source produces no result at all. -/
def turtlesMaxOf (x : Except String TurtlesResult) : ℕ :=
  match x with
  | .ok r => r.max_score
  | .error _ => 25

lemma turtlesScoreOf_le (td : TickerData) : turtlesScoreOf (evaluate_turtles td) ≤ 25 := by
  rcases h : evaluate_turtles td with e | r
  · simp [turtlesScoreOf]
  · obtain ⟨b1, b3, hb1, hb3, hscore, hmax, hsig⟩ := evaluate_turtles_ok h
    have h1 := breakoutBlock_fst hb1
    have h2 := volumeBlock_fst (if 0 < td.avg_volume_20d.getD 1 then
      td.volume.getD 0 / td.avg_volume_20d.getD 1 else 1)
    have h3 := extensionBlock_fst hb3
    have h4 := atrBlock_fst (td.price.getD 0) (td.atr_14.getD 0)
    simp only [turtlesScoreOf]
    omega

lemma turtlesMaxOf_eq (td : TickerData) : turtlesMaxOf (evaluate_turtles td) = 25 := by
  rcases h : evaluate_turtles td with e | r
  · simp [turtlesMaxOf]
  · obtain ⟨b1, b3, hb1, hb3, hscore, hmax, hsig⟩ := evaluate_turtles_ok h
    simpa [turtlesMaxOf] using hmax

lemma evaluate_catalyst_max (td : TickerData) (ci : Option CatalystInfo) :
    (evaluate_catalyst td ci).max_score = 25 := by
  rcases ci with _ | ci
  · rfl
  · simp only [evaluate_catalyst]
    split_ifs <;> rfl

/-- C2: every evaluator returns a score within [0, max_score], with the
fixed maxima regime 15, turtles 25, seykota 20, catalyst 25, risk/reward
15, and the maxima sum to 100.  Scores are naturals in this embedding, so
the lower bound 0 holds by construction; it is stated explicitly anyway.
For the turtles evaluator, which can raise on a zero 20-day high, the
projections turtlesScoreOf and turtlesMaxOf return the defaults 0 and 25
on the raising inputs, so the bound here covers exactly the evaluations
that return. -/
theorem c2_evaluator_score_bounds (td : TickerData) (md : MarketData)
    (ci : Option CatalystInfo) (e s t capital : ℚ) (lev : ℤ) :
    (0 ≤ (detect_regime md).score ∧ (detect_regime md).score ≤ 15) ∧
    (0 ≤ turtlesScoreOf (evaluate_turtles td) ∧
      turtlesScoreOf (evaluate_turtles td) ≤ 25 ∧
      turtlesMaxOf (evaluate_turtles td) = 25) ∧
    (0 ≤ (evaluate_seykota td).score ∧ (evaluate_seykota td).score ≤ 20 ∧
      (evaluate_seykota td).max_score = 20) ∧
    (0 ≤ (evaluate_catalyst td ci).score ∧ (evaluate_catalyst td ci).score ≤ 25 ∧
      (evaluate_catalyst td ci).max_score = 25) ∧
    (0 ≤ (evaluate_risk_reward td e s t capital lev).score ∧
      (evaluate_risk_reward td e s t capital lev).score ≤ 15 ∧
      (evaluate_risk_reward td e s t capital lev).max_score = 15) ∧
    15 + 25 + 20 + 25 + 15 = 100 :=
  ⟨⟨Nat.zero_le _, detect_regime_score_le md⟩,
   ⟨Nat.zero_le _, turtlesScoreOf_le td, turtlesMaxOf_eq td⟩,
   ⟨Nat.zero_le _, evaluate_seykota_score_le td, rfl⟩,
   ⟨Nat.zero_le _, evaluate_catalyst_score_le td ci, evaluate_catalyst_max td ci⟩,
   ⟨Nat.zero_le _, evaluate_risk_reward_score_le td e s t capital lev,
     evaluate_risk_reward_max td e s t capital lev⟩, rfl⟩

/-- true exactly when a committee evaluation returned (did not raise). -/
def exceptOk (x : Except String CommitteeDecision) : Bool :=
  match x with
  | .ok _ => true
  | .error _ => false

/-- decision field of a returned committee evaluation ("ERROR" when the
evaluation raised, a string the source never produces). -/
def okDecision (x : Except String CommitteeDecision) : String :=
  match x with
  | .ok r => r.decision
  | .error _ => "ERROR"

/-- final_score of a returned committee evaluation, 0 when it raised. -/
def okFinalScore (x : Except String CommitteeDecision) : ℕ :=
  match x with
  | .ok r => r.final_score
  | .error _ => 0

/-- breakdown raw_score of a returned committee evaluation, 0 when it raised. -/
def okRawScore (x : Except String CommitteeDecision) : ℕ :=
  match x with
  | .ok r => r.breakdown.raw_score
  | .error _ => 0

/-- breakdown sector_adjustment of a returned committee evaluation. -/
def okSectorAdj (x : Except String CommitteeDecision) : ℤ :=
  match x with
  | .ok r => r.breakdown.sector_adjustment
  | .error _ => 0

/-- true exactly when a turtles evaluation returned (did not raise). -/
def turtlesOk (x : Except String TurtlesResult) : Bool :=
  match x with
  | .ok _ => true
  | .error _ => false

/-- breakout signal of a returned turtles evaluation, false when it raised. -/
def turtlesBreakoutOf (x : Except String TurtlesResult) : Bool :=
  match x with
  | .ok r => r.signals.breakout
  | .error _ => false

lemma evaluate_turtles_score_le {td : TickerData} {t : TurtlesResult}
    (ht : evaluate_turtles td = .ok t) : t.score ≤ 25 := by
  have h := turtlesScoreOf_le td
  rw [ht] at h
  simpa [turtlesScoreOf] using h

/-- a successful aggregator run on a positive price implies both unchecked
divisions succeeded. -/
lemma evaluate_opportunity_ok_inv {ticker : String} {td : TickerData} {md : MarketData}
    {ci : Option CatalystInfo} {entry stop target : Option ℚ} {capital : ℚ} {lev : ℤ}
    {r : CommitteeDecision} (hp : ¬(td.price.getD 0 ≤ 0))
    (h : evaluate_opportunity ticker td md ci entry stop target capital lev = .ok r) :
    ∃ t tp, evaluate_turtles td = .ok t ∧
      fdiv ((effTarget td target - effEntry td entry) * 100) (effEntry td entry) = .ok tp := by
  simp only [evaluate_opportunity] at h
  rw [if_neg hp] at h
  rcases ht : evaluate_turtles td with e | t
  · rw [ht] at h
    exact absurd h (by simp)
  · rcases htp : fdiv ((effTarget td target - effEntry td entry) * 100) (effEntry td entry)
      with e | tp
    · rw [ht, htp] at h
      exact absurd h (by simp)
    · exact ⟨t, tp, rfl, rfl⟩

/-- what evaluate_opportunity returns on a positive price when neither
unchecked division raises: the decision if-chain over hard_reject and the
final score, and the breakdown bookkeeping. -/
lemma evaluate_opportunity_fields (ticker : String) (td : TickerData) (md : MarketData)
    (ci : Option CatalystInfo) (entry stop target : Option ℚ) (capital : ℚ) (lev : ℤ)
    (hp : ¬(td.price.getD 0 ≤ 0))
    {t : TurtlesResult} (ht : evaluate_turtles td = .ok t)
    {tp : ℚ}
    (htp : fdiv ((effTarget td target - effEntry td entry) * 100) (effEntry td entry) = .ok tp) :
    ∃ r, evaluate_opportunity ticker td md ci entry stop target capital lev = .ok r ∧
      r.decision = (if (evaluate_risk_reward td (effEntry td entry) (effStop td stop)
          (effTarget td target) capital lev).hard_reject then "REJECT"
        else if 75 ≤ r.final_score then "BUY"
        else if 60 ≤ r.final_score then "WATCHLIST"
        else "SKIP") ∧
      r.breakdown.raw_score = (detect_regime md).score + t.score + (evaluate_seykota td).score +
        (evaluate_catalyst td ci).score + (evaluate_risk_reward td (effEntry td entry)
          (effStop td stop) (effTarget td target) capital lev).score ∧
      r.final_score = apply_sector_adjustment r.breakdown.raw_score td.sector (detect_regime md) ∧
      r.breakdown.sector_adjustment = (r.final_score : ℤ) - (r.breakdown.raw_score : ℤ) := by
  simp only [evaluate_opportunity]
  rw [if_neg hp, ht, htp]
  refine ⟨_, rfl, ?_, rfl, rfl, rfl⟩
  simp only [apply_ite (f := Prod.fst)]

/-- C1: for every aggregator input that evaluates (positive price, no
division-by-zero raise), a hard_reject from the risk/reward evaluator on
the effective entry/stop/target forces decision REJECT, regardless of the
final score. -/
theorem c1_hard_reject_forces_reject (ticker : String) (td : TickerData) (md : MarketData)
    (ci : Option CatalystInfo) (entry stop target : Option ℚ) (capital : ℚ) (lev : ℤ)
    (hp : 0 < td.price.getD 0)
    (hr : (evaluate_risk_reward td (effEntry td entry) (effStop td stop)
      (effTarget td target) capital lev).hard_reject = true)
    (hok : exceptOk (evaluate_opportunity ticker td md ci entry stop target capital lev) = true) :
    okDecision (evaluate_opportunity ticker td md ci entry stop target capital lev) =
      "REJECT" := by
  have hp' : ¬(td.price.getD 0 ≤ 0) := not_le.mpr hp
  rcases hx : evaluate_opportunity ticker td md ci entry stop target capital lev with e | r
  · rw [hx] at hok
    simp [exceptOk] at hok
  · obtain ⟨t, tp, ht, htp⟩ := evaluate_opportunity_ok_inv hp' hx
    obtain ⟨r', hr', hdec, _, _, _⟩ :=
      evaluate_opportunity_fields ticker td md ci entry stop target capital lev hp' ht htp
    rw [hx] at hr'
    simp only [Except.ok.injEq] at hr'
    subst hr'
    rw [hr, if_pos rfl] at hdec
    simpa [okDecision] using hdec

lemma breakoutBlock_ok_of {p h : ℚ} (hh : h ≠ 0) : ∃ b, breakoutBlock p h = .ok b := by
  unfold breakoutBlock
  split_ifs <;> exact ⟨_, withDiv_of_nonzero _ hh _⟩

lemma extensionBlock_ok_of {p h : ℚ} (hh : h ≠ 0) : ∃ b, extensionBlock p h = .ok b := by
  unfold extensionBlock
  split_ifs
  · exact ⟨_, withDiv_of_nonzero _ hh _⟩
  · exact ⟨_, rfl⟩

/-- the turtles evaluation returns whenever the effective 20-day high is
nonzero. -/
lemma evaluate_turtles_ok_of (td : TickerData)
    (hh : td.high_20d.getD (td.price.getD 0) ≠ 0) :
    ∃ t, evaluate_turtles td = .ok t := by
  obtain ⟨b1, h1⟩ := breakoutBlock_ok_of (p := td.price.getD 0) hh
  obtain ⟨b3, h3⟩ := extensionBlock_ok_of (p := td.price.getD 0) hh
  exact ⟨_, evaluate_turtles_eq td h1 h3⟩

/-- the aggregator returns whenever the price is positive, the effective
20-day high is nonzero and the effective entry is nonzero. -/
lemma evaluate_opportunity_ok_of (ticker : String) (td : TickerData) (md : MarketData)
    (ci : Option CatalystInfo) (entry stop target : Option ℚ) (capital : ℚ) (lev : ℤ)
    (hp : ¬(td.price.getD 0 ≤ 0))
    (hh : td.high_20d.getD (td.price.getD 0) ≠ 0)
    (he : effEntry td entry ≠ 0) :
    exceptOk (evaluate_opportunity ticker td md ci entry stop target capital lev) = true := by
  obtain ⟨t, ht⟩ := evaluate_turtles_ok_of td hh
  have htp : fdiv ((effTarget td target - effEntry td entry) * 100) (effEntry td entry) =
      .ok (((effTarget td target - effEntry td entry) * 100) / effEntry td entry) := by
    unfold fdiv
    rw [if_neg he]
  obtain ⟨r, hr, -, -, -, -⟩ :=
    evaluate_opportunity_fields ticker td md ci entry stop target capital lev hp ht htp
  rw [hr]
  rfl

/-- C1 witness: entry 100, stop 98, target 104 gives a 2:1 reward-to-risk,
hence hard_reject, and the returned decision is REJECT. -/
theorem c1_witness :
    okDecision (evaluate_opportunity "W" { price := some 100 } {} none (some 100) (some 98)
      (some 104) 500 5) = "REJECT" := by
  have hr : (evaluate_risk_reward { price := some 100 }
      (effEntry { price := some 100 } (some 100)) (effStop { price := some 100 } (some 98))
      (effTarget { price := some 100 } (some 104)) 500 5).hard_reject = true := by
    rw [show effEntry { price := some 100 } (some 100) = 100 from rfl,
        show effStop { price := some 100 } (some 98) = 98 from rfl,
        show effTarget { price := some 100 } (some 104) = 104 from rfl,
        evaluate_risk_reward_eq _ 100 98 104 500 5 (by norm_num) (by norm_num)]
    show decide ((104 - 100 : ℚ) / (100 - 98) < 3) = true
    simp only [decide_eq_true_eq]
    norm_num
  exact c1_hard_reject_forces_reject "W" { price := some 100 } {} none (some 100) (some 98)
    (some 104) 500 5 (by norm_num) hr
    (evaluate_opportunity_ok_of "W" { price := some 100 } {} none (some 100) (some 98)
      (some 104) 500 5 (by norm_num) (by simp) (by norm_num [effEntry]))

/-- C3: whenever the risk/reward evaluation of the effective
entry/stop/target does not hard-reject, the returned decision is exactly
determined by the final score: BUY at 75 and above (75 itself is BUY),
WATCHLIST from 60 to 74, SKIP below 60. -/
theorem c3_decision_thresholds (ticker : String) (td : TickerData) (md : MarketData)
    (ci : Option CatalystInfo) (entry stop target : Option ℚ) (capital : ℚ) (lev : ℤ)
    (hr : (evaluate_risk_reward td (effEntry td entry) (effStop td stop)
      (effTarget td target) capital lev).hard_reject = false)
    (hok : exceptOk (evaluate_opportunity ticker td md ci entry stop target capital lev) = true) :
    (okDecision (evaluate_opportunity ticker td md ci entry stop target capital lev) = "BUY" ↔
      75 ≤ okFinalScore (evaluate_opportunity ticker td md ci entry stop target capital lev)) ∧
    (okDecision (evaluate_opportunity ticker td md ci entry stop target capital lev) =
        "WATCHLIST" ↔
      60 ≤ okFinalScore (evaluate_opportunity ticker td md ci entry stop target capital lev) ∧
      okFinalScore (evaluate_opportunity ticker td md ci entry stop target capital lev) < 75) ∧
    (okDecision (evaluate_opportunity ticker td md ci entry stop target capital lev) = "SKIP" ↔
      okFinalScore (evaluate_opportunity ticker td md ci entry stop target capital lev) < 60) := by
  by_cases hp : td.price.getD 0 ≤ 0
  · have hx : evaluate_opportunity ticker td md ci entry stop target capital lev =
        .ok (error_result ticker "No hay datos de precio") := by
      simp only [evaluate_opportunity]
      rw [if_pos hp]
    rw [hx]
    simp only [okDecision, okFinalScore, error_result]
    refine ⟨⟨fun h => absurd h (by decide), fun h => absurd h (by norm_num)⟩,
      ⟨fun h => absurd h (by decide), fun h => absurd h.1 (by norm_num)⟩,
      ⟨fun _ => by norm_num, fun _ => trivial⟩⟩
  · rcases hx : evaluate_opportunity ticker td md ci entry stop target capital lev with e | r
    · rw [hx] at hok
      simp [exceptOk] at hok
    · obtain ⟨t, tp, ht, htp⟩ := evaluate_opportunity_ok_inv hp hx
      obtain ⟨r', hr', hdec, _, _, _⟩ :=
        evaluate_opportunity_fields ticker td md ci entry stop target capital lev hp ht htp
      rw [hx] at hr'
      simp only [Except.ok.injEq] at hr'
      subst hr'
      rw [hr, if_neg (by norm_num)] at hdec
      simp only [okDecision, okFinalScore]
      by_cases h75 : 75 ≤ r.final_score
      · rw [if_pos h75] at hdec
        rw [hdec]
        refine ⟨⟨fun _ => h75, fun _ => rfl⟩,
          ⟨fun h => absurd h (by decide), fun h => absurd h75 (by omega)⟩,
          ⟨fun h => absurd h (by decide), fun h => absurd h75 (by omega)⟩⟩
      · rw [if_neg h75] at hdec
        by_cases h60 : 60 ≤ r.final_score
        · rw [if_pos h60] at hdec
          rw [hdec]
          refine ⟨⟨fun h => absurd h (by decide), fun h => absurd h (by omega)⟩,
            ⟨fun _ => ⟨h60, by omega⟩, fun _ => rfl⟩,
            ⟨fun h => absurd h (by decide), fun h => absurd h60 (by omega)⟩⟩
        · rw [if_neg h60] at hdec
          rw [hdec]
          refine ⟨⟨fun h => absurd h (by decide), fun h => absurd h75 (by omega)⟩,
            ⟨fun h => absurd h (by decide), fun h => absurd h60 (by omega)⟩,
            ⟨fun _ => by omega, fun _ => rfl⟩⟩

/-- C3 witness: the all-defaults low-conviction run (final score 36, no
hard reject) is SKIP, and the boundary biconditionals hold there. -/
theorem c3_witness :
    (okDecision (evaluate_opportunity "W" { price := some 100 } {} none (some 100) (some 95)
        (some 115) 500 5) = "SKIP" ↔
      okFinalScore (evaluate_opportunity "W" { price := some 100 } {} none (some 100) (some 95)
        (some 115) 500 5) < 60) := by
  have hr : (evaluate_risk_reward { price := some 100 }
      (effEntry { price := some 100 } (some 100)) (effStop { price := some 100 } (some 95))
      (effTarget { price := some 100 } (some 115)) 500 5).hard_reject = false := by
    rw [show effEntry { price := some 100 } (some 100) = 100 from rfl,
        show effStop { price := some 100 } (some 95) = 95 from rfl,
        show effTarget { price := some 100 } (some 115) = 115 from rfl,
        evaluate_risk_reward_eq _ 100 95 115 500 5 (by norm_num) (by norm_num)]
    show decide ((115 - 100 : ℚ) / (100 - 95) < 3) = false
    simp only [decide_eq_false_iff_not]
    norm_num
  exact (c3_decision_thresholds "W" { price := some 100 } {} none (some 100) (some 95)
    (some 115) 500 5 hr
    (evaluate_opportunity_ok_of "W" { price := some 100 } {} none (some 100) (some 95)
      (some 115) 500 5 (by norm_num) (by simp) (by norm_num [effEntry]))).2.2

/-- C4 (code_bug evidence): a present-but-zero 20-day high together with a
positive price drives the turtles breakout branch into a division by zero
(the percent-above-high computation), so evaluate_opportunity raises
instead of returning a CommitteeDecision — against the stated totality. -/
theorem c4_zero_high_raises :
    evaluate_opportunity "TICK" { price := some 50, high_20d := some 0 } {} none none none none
      500 5 = .error "ZeroDivisionError: float division by zero" := by
  have hb : breakoutBlock (50 : ℚ) 0 = .error "ZeroDivisionError: float division by zero" := by
    unfold breakoutBlock
    rw [if_pos (by norm_num : (0:ℚ) < 50)]
    unfold withDiv fdiv
    rw [if_pos rfl]
  have ht : evaluate_turtles { price := some 50, high_20d := some 0 } =
      .error "ZeroDivisionError: float division by zero" := by
    simp only [evaluate_turtles, Option.getD_some]
    rw [hb]
    rfl
  simp only [evaluate_opportunity, Option.getD_some]
  rw [if_neg (by norm_num : ¬((50:ℚ) ≤ 0)), ht]

/-- C5: with positive entry, stop and target and the stop strictly below
the entry, the risk/reward evaluator sets hard_reject exactly when the
reward-to-risk quotient (target - entry) / (entry - stop) is below 3; at
entry 100, stop 95, target 115 the quotient is exactly 3, hard_reject is
false, and the R:R component (rrPoints, the block the evaluator adds for
this quotient) awards 6 points, not 8. -/
theorem c5_hard_reject_iff_rr_lt_three :
    (∀ (td : TickerData) (e s t capital : ℚ) (lev : ℤ), 0 < e → 0 < s → 0 < t → s < e →
      ((evaluate_risk_reward td e s t capital lev).hard_reject = true ↔
        (t - e) / (e - s) < 3)) ∧
    ((115 - 100 : ℚ) / (100 - 95) = 3) ∧
    (∀ (td : TickerData) (capital : ℚ) (lev : ℤ),
      (evaluate_risk_reward td 100 95 115 capital lev).hard_reject = false) ∧
    (rrPoints ((115 - 100 : ℚ) / (100 - 95))).1 = 6 ∧
    (rrPoints ((115 - 100 : ℚ) / (100 - 95))).1 ≠ 8 := by
  refine ⟨?_, by norm_num, ?_, ?_, ?_⟩
  · intro td e s t capital lev he hs ht hse
    have h1 : ¬(e ≤ 0 ∨ s ≤ 0 ∨ t ≤ 0) := by push_neg; exact ⟨he, hs, ht⟩
    have h2 : ¬(e - s ≤ 0) := by push_neg; linarith
    rw [evaluate_risk_reward_eq td e s t capital lev h1 h2]
    show decide ((t - e) / (e - s) < 3) = true ↔ (t - e) / (e - s) < 3
    exact decide_eq_true_iff
  · intro td capital lev
    rw [evaluate_risk_reward_eq td 100 95 115 capital lev (by norm_num) (by norm_num)]
    show decide ((115 - 100 : ℚ) / (100 - 95) < 3) = false
    simp only [decide_eq_false_iff_not]
    norm_num
  · norm_num [rrPoints]
  · norm_num [rrPoints]

/-- C5 witness: entry 100, stop 98, target 104 has quotient 2 below 3 and
is hard-rejected. -/
theorem c5_witness : (evaluate_risk_reward {} 100 98 104 500 5).hard_reject = true :=
  (c5_hard_reject_iff_rr_lt_three.1 {} 100 98 104 500 5 (by norm_num) (by norm_num)
    (by norm_num) (by norm_num)).mpr (by norm_num)

/-- C6: without a volatility index the regime detector returns regime
"unknown" with score 10 and an empty sector bias, whatever the other
market fields hold (and, being a total function of its input, it cannot
fail). -/
theorem c6_no_vix_unknown (md : MarketData) (h : md.vix = none) :
    detect_regime md =
      { regime := "unknown", score := 10,
        reasoning := "Sin datos de VIX - asumiendo condiciones neutras",
        sector_bias := { boost := [], penalize := [] } } := by
  simp only [detect_regime, h]

/-- C6 witness: other market fields present and adverse do not change the
unknown result. -/
theorem c6_witness :
    detect_regime
      { vix := none, sp500_change := some 5, spy_above_200ema := some false,
        advance_decline_ratio := some 0.2 } =
      { regime := "unknown", score := 10,
        reasoning := "Sin datos de VIX - asumiendo condiciones neutras",
        sector_bias := { boost := [], penalize := [] } } :=
  c6_no_vix_unknown _ rfl

lemma breakoutBlock_at_high {p : ℚ} (hp : 0 < p) :
    breakoutBlock p p = .ok (5, "~ Cerca del breakout: bajo máximo 20d") := by
  unfold breakoutBlock
  rw [if_neg (lt_irrefl p), if_pos (by linarith : p * 0.98 ≤ p),
    withDiv_of_nonzero _ (ne_of_gt hp) _]

lemma extensionBlock_not_breakout {p h : ℚ} (hnb : ¬(h < p)) :
    extensionBlock p h = .ok (2, "~ Sin sobreextensión (no hay breakout activo)") := by
  unfold extensionBlock
  rw [if_neg hnb]

/-- turtles at a price exactly equal to a positive effective 20-day high:
the run returns, the breakout signal is false, and the score is the
5-point proximity branch plus the 2-point no-extension branch plus the
volume and ATR components. -/
lemma evaluate_turtles_at_high (td : TickerData) (p : ℚ) (hp : 0 < p)
    (hprice : td.price.getD 0 = p) (hhigh : td.high_20d.getD (td.price.getD 0) = p) :
    turtlesOk (evaluate_turtles td) = true ∧
    turtlesBreakoutOf (evaluate_turtles td) = false ∧
    turtlesScoreOf (evaluate_turtles td) =
      5 + (volumeBlock (if 0 < td.avg_volume_20d.getD 1 then
        td.volume.getD 0 / td.avg_volume_20d.getD 1 else 1)).1 + 2 +
      (atrBlock (td.price.getD 0) (td.atr_14.getD 0)).1 := by
  have h1 : breakoutBlock (td.price.getD 0) (td.high_20d.getD (td.price.getD 0)) =
      .ok (5, "~ Cerca del breakout: bajo máximo 20d") := by
    rw [hhigh, hprice]
    exact breakoutBlock_at_high hp
  have h3 : extensionBlock (td.price.getD 0) (td.high_20d.getD (td.price.getD 0)) =
      .ok (2, "~ Sin sobreextensión (no hay breakout activo)") := by
    rw [hhigh, hprice]
    exact extensionBlock_not_breakout (lt_irrefl p)
  have heq := evaluate_turtles_eq td h1 h3
  rw [heq]
  refine ⟨rfl, ?_, rfl⟩
  simp only [turtlesBreakoutOf]
  rw [hhigh, hprice]
  simp

/-- C7: a price exactly equal to a positive 20-day high does not take the
strict-inequality 10-point breakout bonus but does take the 5-point
within-2-percent proximity branch, and the breakout signal is false. -/
theorem c7_price_at_high (td : TickerData) (p : ℚ) (hp : 0 < p)
    (hprice : td.price = some p) (hhigh : td.high_20d = some p) :
    breakoutBlock p p = .ok (5, "~ Cerca del breakout: bajo máximo 20d") ∧
    turtlesOk (evaluate_turtles td) = true ∧
    turtlesBreakoutOf (evaluate_turtles td) = false := by
  have hp' : td.price.getD 0 = p := by rw [hprice]; rfl
  have hh' : td.high_20d.getD (td.price.getD 0) = p := by rw [hhigh]; rfl
  obtain ⟨h1, h2, h3⟩ := evaluate_turtles_at_high td p hp hp' hh'
  exact ⟨breakoutBlock_at_high hp, h1, h2⟩

/-- C7 witness at price = high_20d = 50. -/
theorem c7_witness :
    breakoutBlock (50 : ℚ) 50 = .ok (5, "~ Cerca del breakout: bajo máximo 20d") ∧
    turtlesOk (evaluate_turtles { price := some 50, high_20d := some 50 }) = true ∧
    turtlesBreakoutOf (evaluate_turtles { price := some 50, high_20d := some 50 }) = false :=
  c7_price_at_high { price := some 50, high_20d := some 50 } 50 (by norm_num) rfl rfl

/-- C10: a positive price with no 20-day-high field defaults the high to
the price, so the breakout signal is false, yet the run returns and always
collects at least the 5-point proximity branch plus the 2-point
no-extension branch: at least 7 turtles points. -/
theorem c10_missing_high_defaults (td : TickerData) (p : ℚ) (hp : 0 < p)
    (hprice : td.price = some p) (hhigh : td.high_20d = none) :
    turtlesOk (evaluate_turtles td) = true ∧
    turtlesBreakoutOf (evaluate_turtles td) = false ∧
    7 ≤ turtlesScoreOf (evaluate_turtles td) := by
  have hp' : td.price.getD 0 = p := by rw [hprice]; rfl
  have hh' : td.high_20d.getD (td.price.getD 0) = p := by
    rw [hhigh, Option.getD_none, hp']
  obtain ⟨h1, h2, h3⟩ := evaluate_turtles_at_high td p hp hp' hh'
  refine ⟨h1, h2, ?_⟩
  rw [h3]
  omega

/-- C10 witness: a bare positive price collects at least 7 turtles points
with no breakout signal. -/
theorem c10_witness :
    turtlesOk (evaluate_turtles { price := some 50 }) = true ∧
    turtlesBreakoutOf (evaluate_turtles { price := some 50 }) = false ∧
    7 ≤ turtlesScoreOf (evaluate_turtles { price := some 50 }) :=
  c10_missing_high_defaults { price := some 50 } 50 (by norm_num) rfl rfl

lemma timingPoints_fst_eq (d : ℤ) :
    (timingPoints d).1 = if 3 ≤ d ∧ d ≤ 7 then 7 else if 1 ≤ d ∧ d ≤ 14 then 4
      else if 14 < d ∧ d < 30 then 2 else if 30 ≤ d then 1 else 2 := by
  simp only [timingPoints]
  split_ifs <;> rfl

/-- C9: for a present (non-empty) catalyst descriptor, the catalyst score
is the type, timing, history and expectation components added together,
and the timing component awards exactly 7 for a days-to-event in [3,7],
4 in [1,14] outside that sweet spot, 2 strictly between 14 and 30, 1 at
30 or more, and 2 otherwise — imminent or past, i.e. below 1, including
exactly 0 days. -/
theorem c9_timing_component (td : TickerData) (ci : CatalystInfo)
    (hne : CatalystInfo.isEmpty ci = false) (d : ℤ) (hd : catalystDays ci = d) :
    (evaluate_catalyst td (some ci)).score =
      catTypePoints (strLower (ci.type.getD "unknown")) + (timingPoints d).1 +
      (histPoints (td.historical_earnings_reaction.getD 0)).1 +
      (expectPoints (strLower (ci.consensus_sentiment.getD "neutral"))
        (strLower (ci.type.getD "unknown"))).1 ∧
    (3 ≤ d ∧ d ≤ 7 → (timingPoints d).1 = 7) ∧
    (¬(3 ≤ d ∧ d ≤ 7) → 1 ≤ d ∧ d ≤ 14 → (timingPoints d).1 = 4) ∧
    (14 < d ∧ d < 30 → (timingPoints d).1 = 2) ∧
    (30 ≤ d → (timingPoints d).1 = 1) ∧
    (d < 1 → (timingPoints d).1 = 2) := by
  subst hd
  refine ⟨evaluate_catalyst_score_some td ci hne, ?_, ?_, ?_, ?_, ?_⟩
  · intro h
    rw [timingPoints_fst_eq]
    split_ifs
    all_goals omega
  · intro h h2
    rw [timingPoints_fst_eq]
    split_ifs
    all_goals omega
  · intro h
    rw [timingPoints_fst_eq]
    split_ifs
    all_goals omega
  · intro h
    rw [timingPoints_fst_eq]
    split_ifs
    all_goals omega
  · intro h
    rw [timingPoints_fst_eq]
    split_ifs
    all_goals omega

/-- C9 witness: a catalyst with days_to_event exactly 0 decomposes as the
four components and its timing component is 2 (imminent/past branch). -/
theorem c9_witness :
    (evaluate_catalyst {} (some { days_to_event := some 0 })).score =
      catTypePoints (strLower "unknown") + (timingPoints 0).1 +
      (histPoints 0).1 +
      (expectPoints (strLower "neutral") (strLower "unknown")).1 ∧
    (timingPoints 0).1 = 2 :=
  ⟨(c9_timing_component {} { days_to_event := some 0 } rfl 0 rfl).1,
   (c9_timing_component {} { days_to_event := some 0 } rfl 0 rfl).2.2.2.2.2 (by norm_num)⟩

lemma detect_regime_riskoff :
    detect_regime { vix := some 26 } =
      { regime := "risk_off", score := 5,
        reasoning := "VIX alto, mercado en modo defensivo. Solo trend following en activos refugio.",
        sector_bias := { boost := ["utilities", "healthcare", "staples"],
                         penalize := ["tech", "growth", "small_caps"] } } := by
  simp only [detect_regime]
  rw [if_neg (by norm_num), if_neg (by norm_num), if_pos (by norm_num),
    if_pos (by norm_num : (26:ℚ) < 30)]

/-- C8 counterexample: in the risk_off regime the sector string
"growth utilities" matches the penalize list (substring "growth"), yet the
code returns the boost value 50 + 5 = 55 — not max(50 - 10, 0) = 40 —
because the boost list ("utilities" matches too) is tested first.  The
claim's clause "a sector matching the penalize list yields
max(raw - 10, 0)" is therefore false as stated. -/
theorem c8_counterexample :
    biasMatches (detect_regime { vix := some 26 }).sector_bias.penalize
      (strLower "growth utilities") = true ∧
    apply_sector_adjustment 50 (some "growth utilities") (detect_regime { vix := some 26 }) =
      55 ∧
    apply_sector_adjustment 50 (some "growth utilities") (detect_regime { vix := some 26 }) ≠
      40 := by
  rw [detect_regime_riskoff]
  refine ⟨by decide, by decide, by decide⟩

lemma apply_sector_adjustment_le {base : ℕ} (sector : Option String) (ri : RegimeResult)
    (hb : base ≤ 100) : apply_sector_adjustment base sector ri ≤ 100 := by
  rcases sector with _ | s
  · simpa [apply_sector_adjustment] using hb
  · simp only [apply_sector_adjustment]
    split_ifs <;> omega

/-- C8 (amended): a sector matching the boost list (case-insensitive
substring) yields min(raw + 5, 100); a sector matching the penalize list
while not matching the boost list yields max(raw - 10, 0) (Nat
subtraction); a sector matching neither list, or an absent sector, leaves
the score unchanged; and the aggregator reports sector_adjustment =
final_score - raw_score with final_score = clamp(raw_score +
sector_adjustment, 0, 100). -/
theorem c8_sector_adjustment_amended :
    (∀ (raw : ℕ) (s : String) (ri : RegimeResult), s ≠ "" →
      biasMatches ri.sector_bias.boost (strLower s) = true →
      apply_sector_adjustment raw (some s) ri = min (raw + 5) 100) ∧
    (∀ (raw : ℕ) (s : String) (ri : RegimeResult), s ≠ "" →
      biasMatches ri.sector_bias.boost (strLower s) = false →
      biasMatches ri.sector_bias.penalize (strLower s) = true →
      apply_sector_adjustment raw (some s) ri = raw - 10) ∧
    (∀ (raw : ℕ) (s : String) (ri : RegimeResult),
      biasMatches ri.sector_bias.boost (strLower s) = false →
      biasMatches ri.sector_bias.penalize (strLower s) = false →
      apply_sector_adjustment raw (some s) ri = raw) ∧
    (∀ (raw : ℕ) (ri : RegimeResult), apply_sector_adjustment raw none ri = raw) ∧
    (∀ (ticker : String) (td : TickerData) (md : MarketData) (ci : Option CatalystInfo)
      (entry stop target : Option ℚ) (capital : ℚ) (lev : ℤ),
      okSectorAdj (evaluate_opportunity ticker td md ci entry stop target capital lev) =
        (okFinalScore (evaluate_opportunity ticker td md ci entry stop target capital lev) : ℤ) -
        (okRawScore (evaluate_opportunity ticker td md ci entry stop target capital lev) : ℤ) ∧
      (okFinalScore (evaluate_opportunity ticker td md ci entry stop target capital lev) : ℤ) =
        max 0 (min ((okRawScore (evaluate_opportunity ticker td md ci entry stop target
          capital lev) : ℤ) +
          okSectorAdj (evaluate_opportunity ticker td md ci entry stop target capital lev))
          100)) := by
  refine ⟨?_, ?_, ?_, ?_, ?_⟩
  · intro raw s ri hs hb
    simp only [apply_sector_adjustment]
    rw [if_neg hs, if_pos hb]
  · intro raw s ri hs hb hp
    simp only [apply_sector_adjustment]
    rw [if_neg hs, if_neg (by simp [hb]), if_pos hp]
  · intro raw s ri hb hp
    by_cases hs : s = ""
    · simp only [apply_sector_adjustment]
      rw [if_pos hs]
    · simp only [apply_sector_adjustment]
      rw [if_neg hs, if_neg (by simp [hb]), if_neg (by simp [hp])]
  · intro raw ri
    rfl
  · intro ticker td md ci entry stop target capital lev
    by_cases hp : td.price.getD 0 ≤ 0
    · have hx : evaluate_opportunity ticker td md ci entry stop target capital lev =
          .ok (error_result ticker "No hay datos de precio") := by
        simp only [evaluate_opportunity]
        rw [if_pos hp]
      rw [hx]
      simp [okSectorAdj, okFinalScore, okRawScore, error_result]
    · rcases hx : evaluate_opportunity ticker td md ci entry stop target capital lev with e | r
      · simp [okSectorAdj, okFinalScore, okRawScore]
      · obtain ⟨t, tp, ht, htp⟩ := evaluate_opportunity_ok_inv hp hx
        obtain ⟨r', hr', _, hraw, hfs, hadj⟩ :=
          evaluate_opportunity_fields ticker td md ci entry stop target capital lev hp ht htp
        rw [hx] at hr'
        simp only [Except.ok.injEq] at hr'
        subst hr'
        have hraw100 : r.breakdown.raw_score ≤ 100 := by
          rw [hraw]
          have h1 := detect_regime_score_le md
          have h2 := evaluate_turtles_score_le ht
          have h3 := evaluate_seykota_score_le td
          have h4 := evaluate_catalyst_score_le td ci
          have h5 := evaluate_risk_reward_score_le td (effEntry td entry) (effStop td stop)
            (effTarget td target) capital lev
          omega
        have hfs100 : r.final_score ≤ 100 := by
          rw [hfs]
          exact apply_sector_adjustment_le td.sector (detect_regime md) hraw100
        simp only [okSectorAdj, okFinalScore, okRawScore]
        constructor
        · exact hadj
        · rw [hadj]
          omega

/-- C8 witness: a boost-matching sector at raw score 98 is capped at 100
(min (98 + 5) 100). -/
theorem c8_witness :
    apply_sector_adjustment 98 (some "Tech")
      { regime := "risk_on", score := 15, reasoning := "r",
        sector_bias := { boost := ["tech"], penalize := [] } } = min (98 + 5) 100 :=
  c8_sector_adjustment_amended.1 98 "Tech"
    { regime := "risk_on", score := 15, reasoning := "r",
      sector_bias := { boost := ["tech"], penalize := [] } } (by decide) (by decide)
